import Mathlib

/-
  Shallow embedding of the user-account backend (be-cac-pro):
  the authentication/session-token lifecycle implemented in
  src/controllers/user.controller.js together with the asyncHandler
  wrapper from src/utils/asyncHandler.js.

  The persistent account store is modelled as a list of accounts inside a
  DB state value; JSON request/response values are modelled by explicit
  structures.  Code of the repository that is referenced but not present
  under src/ (models/user.model.js, utils/ApiError.js, utils/ApiResponse.js,
  utils/cloudinary.js) is modelled from the specification; every such
  definition carries a doc comment starting with Modelled from the spec.
-/

namespace CacPro

/-- Kind of a signed token: short-lived access token or long-lived refresh
token.  Access and refresh tokens are signed with different secrets, so a
token of the wrong kind never verifies under the refresh secret. -/
inductive TokenKind where
  | access
  | refresh
deriving DecidableEq, Repr

/-- Modelled from the spec: a signed JSON web token as produced by the
missing models/user.model.js methods generateAccessToken and
generateRefreshToken.  Per the spec both encode the account id and an
expiry; the issue instant iat (a wall-clock second in the real JWT) is
modelled by a monotone counter carried in the DB state, so tokens minted
at different instants are distinct values. -/
structure Token where
  kind : TokenKind
  subjectId : Nat
  iat : Nat
deriving DecidableEq, Repr

/-- One persisted account record (the User document of user.model.js as
used by the controller): identity, unique natural keys, secrets and
profile fields. -/
structure Account where
  id : Nat
  userName : String
  fullName : String
  email : String
  password : String
  avatarImage : String
  coverImage : String
  refreshToken : Option Token
deriving DecidableEq, Repr

/-- The state of the account store plus the token clock: the list of
persisted accounts, the current mint instant for tokens and the id given
to the next created account. -/
structure DB where
  users : List Account
  now : Nat
  nextId : Nat
deriving DecidableEq, Repr

/-- Modelled from the spec: the structured failure object thrown by
utils/ApiError.js (absent from src), a statusCode and message pair. -/
structure ApiError where
  statusCode : Nat
  message : String
deriving DecidableEq, Repr

/-- A failure escaping a handler: either a thrown ApiError, or a plain
JavaScript runtime error (such as a TypeError from calling a method on
undefined) that bubbles to the top-level error handler via next(err). -/
inductive Failure where
  | api (e : ApiError)
  | js (msg : String)
deriving DecidableEq, Repr

/-- User.findById: first account whose id matches. -/
def findById (db : DB) (id : Nat) : Option Account :=
  db.users.find? (fun a => a.id == id)

/-- Whether an account matches the $or predicate over userName and email
used by User.findOne in registerUser and loginUser.  The account store is
an external collaborator; per the spec its predicate is an OR over
username and email, an absent field contributing no match. -/
def matchesOr (userName email : Option String) (a : Account) : Bool :=
  (match userName with
   | some u => a.userName == u
   | none => false) ||
  (match email with
   | some e => a.email == e
   | none => false)

/-- User.findOne with the $or predicate over userName and email. -/
def findOne (db : DB) (userName email : Option String) : Option Account :=
  db.users.find? (matchesOr userName email)

/-- user.save: write back an account instance, replacing every stored
record carrying its id. -/
def saveUser (db : DB) (u : Account) : DB :=
  { db with users := db.users.map (fun a => if a.id == u.id then u else a) }

/-- Modelled from the spec: user.generateAccessToken of the missing
models/user.model.js, a signed token carrying the account id, minted at
the current instant. -/
def generateAccessToken (user : Account) (now : Nat) : Token :=
  ⟨TokenKind.access, user.id, now⟩

/-- Modelled from the spec: user.generateRefreshToken of the missing
models/user.model.js, a signed long-lived token carrying the account id,
minted at the current instant. -/
def generateRefreshToken (user : Account) (now : Nat) : Token :=
  ⟨TokenKind.refresh, user.id, now⟩

/-- Modelled from the spec: the refresh-token lifetime, a long configured
lifetime on a days-to-weeks scale (here ten days of seconds). -/
def refreshTokenLifetime : Nat := 864000

/-- Modelled from the spec: jwt.verify against the refresh-token secret.
Validates signature and expiry and yields the decoded account id claim;
a token of the wrong kind fails the signature check and an expired token
fails the expiry check, each with a diagnostic reason. -/
def jwtVerifyRefresh (t : Token) (now : Nat) : Except String Nat :=
  if t.kind != TokenKind.refresh then Except.error "invalid signature"
  else if t.iat + refreshTokenLifetime ≤ now then Except.error "jwt expired"
  else Except.ok t.subjectId

/-- generateTokens of user.controller.js: look the user up by id, mint an
access and a refresh token, persist the refresh token on the record and
return both together with the updated store.  When findById yields null
the body of the try block throws a TypeError on user.generateAccessToken,
and the catch-all turns every thrown error into ApiError 500, so an
absent account surfaces exactly like any other failure.  The returned
state advances the mint clock past the minted tokens. -/
def generateTokens (db : DB) (userId : Nat) : Except ApiError (Token × Token × DB) :=
  match findById db userId with
  | none => Except.error ⟨500, "Error while generating tokens"⟩
  | some user =>
    let accessToken := generateAccessToken user db.now
    let refreshToken := generateRefreshToken user db.now
    let user2 := { user with refreshToken := some refreshToken }
    let db2 := saveUser { db with now := db.now + 1 } user2
    Except.ok (accessToken, refreshToken, db2)

/-- Truthiness of an optional string under JavaScript coercion: undefined
and the empty string are falsy, every other string is truthy. -/
def jsTruthyStr : Option String → Bool
  | none => false
  | some s => s != ""

/-- A JSON value occurring inside a serialized account document. -/
inductive DocVal where
  | nat (n : Nat)
  | str (s : String)
  | tok (t : Token)
deriving DecidableEq, Repr

/-- A serialized document: an ordered list of field name / value pairs. -/
abbrev Doc := List (String × DocVal)

/-- Serialization of an account record to a document; an unset refresh
token produces no refreshToken field at all, as after an $unset. -/
def Account.toDoc (a : Account) : Doc :=
  [("_id", DocVal.nat a.id),
   ("userName", DocVal.str a.userName),
   ("fullName", DocVal.str a.fullName),
   ("email", DocVal.str a.email),
   ("password", DocVal.str a.password),
   ("avatarImage", DocVal.str a.avatarImage),
   ("coverImage", DocVal.str a.coverImage)] ++
  (match a.refreshToken with
   | some t => [("refreshToken", DocVal.tok t)]
   | none => [])

/-- Mongoose .select with negative projections: the serialized account
with the excluded field names removed. -/
def selectExcluding (a : Account) (excluded : List String) : Doc :=
  a.toDoc.filter (fun kv => !(excluded.contains kv.1))

/-- The field names present in a document. -/
def docKeys (d : Doc) : List String := d.map Prod.fst

/-- Cookie attributes passed to res.cookie and res.clearCookie. -/
structure CookieOptions where
  httpOnly : Bool
  secure : Bool
deriving DecidableEq, Repr

/-- One cookie set on a response by res.cookie. -/
structure Cookie where
  name : String
  value : Token
  options : CookieOptions
deriving DecidableEq, Repr

/-- The data object carried by an ApiResponse of one of the four
operations under study. -/
inductive Data where
  | empty
  | registered (message : String) (isUserCreated : Doc)
  | loggedIn (user : Option Doc) (accessToken refreshToken : Token)
  | refreshed (accessToken refreshToken : Token)
deriving DecidableEq, Repr

/-- Modelled from the spec: the success envelope built by
utils/ApiResponse.js (absent from src): a statusCode, a data object and a
message. -/
structure ApiResponse where
  statusCode : Nat
  data : Data
  message : String
deriving DecidableEq, Repr

/-- An HTTP response as assembled by the controllers: status code, the
cookies set, the cookies cleared and the JSON body. -/
structure Response where
  status : Nat
  cookies : List Cookie
  clearedCookies : List (String × CookieOptions)
  body : ApiResponse
deriving DecidableEq, Repr

/-- Modelled from the spec: the hashing collaborator applied on write by
the missing user.model.js pre-save hook; an injective stand-in for the
one-way hash. -/
def hashPw (p : String) : String := "hashed:" ++ p

/-- Modelled from the spec: user.isPasswordCorrect of the missing
models/user.model.js, the credential verifier comparing a submitted
password against the stored hash; it returns false rather than throwing
on mismatch or on a missing submission. -/
def isPasswordCorrect (plain : Option String) (storedHash : String) : Bool :=
  match plain with
  | some p => hashPw p == storedHash
  | none => false

/-- The JavaScript String.prototype.trim operation: the string with
whitespace stripped from both ends, written over the character list so
that it evaluates by reduction. -/
def jsTrim (s : String) : String :=
  ⟨((s.data.dropWhile (fun c => c.isWhitespace)).reverse.dropWhile
      (fun c => c.isWhitespace)).reverse⟩

/-- The JavaScript String.prototype.toLowerCase operation, written over
the character list so that it evaluates by reduction. -/
def jsToLowerCase (s : String) : String := ⟨s.data.map Char.toLower⟩

/-- The uploaded file fields of a register request: the local path of the
first file of each field, when the field is present. -/
structure RegisterFiles where
  avatarImage : Option String
  coverImage : Option String
deriving DecidableEq, Repr

/-- The register request: the four text fields of the body (absent fields
are none) and the optional files object attached by the upload
middleware. -/
structure RegisterRequest where
  userName : Option String
  fullName : Option String
  email : Option String
  password : Option String
  files : Option RegisterFiles
deriving DecidableEq, Repr

/-- The expression req.files?.avatarImage[0].path (and its coverImage
twin): optional chaining short-circuits to undefined when files is
absent, but when files is present and the field is absent, indexing
undefined throws a TypeError. -/
def firstFilePath (files : Option RegisterFiles)
    (field : RegisterFiles → Option String) : Except Failure (Option String) :=
  match files with
  | none => Except.ok none
  | some fs =>
    match field fs with
    | none => Except.error (Failure.js "TypeError: cannot read properties of undefined")
    | some p => Except.ok (some p)

/-- registerUser of user.controller.js.  upload is the external
image-hosting collaborator (utils/cloudinary.js, absent from src;
modelled from the spec as upload(localFilePath) yielding a url or none).
Calling .trim() on an absent body field throws a TypeError before the
validation error can be produced; the blank-after-trim check, the raw
username/email duplicate check, the image requirements, the creation with
the lowercased username and the sanitized re-fetch follow the source
line by line. -/
def registerUser (upload : String → Option String) (db : DB)
    (req : RegisterRequest) : Except Failure Response × DB :=
  match req.fullName, req.userName, req.email, req.password with
  | some fullName, some userName, some email, some password =>
    if jsTrim fullName == "" || jsTrim userName == "" ||
       jsTrim email == "" || jsTrim password == "" then
      (Except.error (Failure.api ⟨400, "All fields are required"⟩), db)
    else
      match findOne db (some userName) (some email) with
      | some _ => (Except.error (Failure.api ⟨400, "User already exist"⟩), db)
      | none =>
        match firstFilePath req.files (fun fs => fs.avatarImage) with
        | Except.error e => (Except.error e, db)
        | Except.ok avatarLocalPath =>
          match firstFilePath req.files (fun fs => fs.coverImage) with
          | Except.error e => (Except.error e, db)
          | Except.ok coverImageLocalPath =>
            if !(jsTruthyStr avatarLocalPath) && !(jsTruthyStr coverImageLocalPath) then
              (Except.error (Failure.api ⟨400, "Profile images are required"⟩), db)
            else
              let avatarImage := avatarLocalPath.bind upload
              let coverImage := coverImageLocalPath.bind upload
              if avatarImage.isNone && coverImage.isNone then
                (Except.error (Failure.api ⟨400, "Profile images are required"⟩), db)
              else
                match avatarImage with
                | none => (Except.error (Failure.js "TypeError: cannot read properties of null"), db)
                | some avatarUrl =>
                  match coverImage with
                  | none => (Except.error (Failure.js "TypeError: cannot read properties of null"), db)
                  | some coverUrl =>
                    let user : Account :=
                      ⟨db.nextId, jsToLowerCase userName, fullName, email,
                       hashPw password, avatarUrl, coverUrl, none⟩
                    let db2 : DB :=
                      { db with users := db.users ++ [user], nextId := db.nextId + 1 }
                    match findById db2 user.id with
                    | none => (Except.error (Failure.api ⟨500, "User not created"⟩), db2)
                    | some created =>
                      (Except.ok
                        { status := 201, cookies := [], clearedCookies := [],
                          body := ⟨200,
                            Data.registered "User registered successfully"
                              (selectExcluding created ["password", "refreshToken"]),
                            "Success"⟩ }, db2)
  | _, _, _, _ =>
    (Except.error (Failure.js "TypeError: cannot read properties of undefined"), db)

/-- The login request body: email, userName and password, each possibly
absent. -/
structure LoginRequest where
  email : Option String
  userName : Option String
  password : Option String
deriving DecidableEq, Repr

/-- loginUser of user.controller.js: require a truthy username or email,
look the account up by the $or predicate, verify the password, issue a
token pair, re-fetch the sanitized account and answer with both tokens in
the body and in two cookies whose options set httpOnly and secure to
false. -/
def loginUser (db : DB) (req : LoginRequest) : Except ApiError Response × DB :=
  if !(jsTruthyStr req.userName || jsTruthyStr req.email) then
    (Except.error ⟨400, "Either username or email required"⟩, db)
  else
    match findOne db req.userName req.email with
    | none => (Except.error ⟨401, "User does not exist"⟩, db)
    | some user =>
      if !(isPasswordCorrect req.password user.password) then
        (Except.error ⟨401, "Invalid password"⟩, db)
      else
        match generateTokens db user.id with
        | Except.error e => (Except.error e, db)
        | Except.ok (accessToken, refreshToken, db2) =>
          let loggedInUser :=
            (findById db2 user.id).map
              (fun u => selectExcluding u ["password", "refreshToken"])
          let options : CookieOptions := ⟨false, false⟩
          (Except.ok
            { status := 200,
              cookies := [⟨"accessToken", accessToken, options⟩,
                          ⟨"refreshToken", refreshToken, options⟩],
              clearedCookies := [],
              body := ⟨200, Data.loggedIn loggedInUser accessToken refreshToken,
                       "User loggedin successfully"⟩ }, db2)

/-- logoutUser of user.controller.js: findByIdAndUpdate with an $unset of
the refreshToken field (a no-op when the id matches no record), then
clear both token cookies with httpOnly and secure set to true. -/
def logoutUser (db : DB) (userId : Nat) : Except ApiError Response × DB :=
  let db2 :=
    match findById db userId with
    | none => db
    | some u => saveUser db { u with refreshToken := none }
  let options : CookieOptions := ⟨true, true⟩
  (Except.ok
    { status := 200, cookies := [],
      clearedCookies := [("accessToken", options), ("refreshToken", options)],
      body := ⟨200, Data.empty, "User logged out successfully"⟩ }, db2)

/-- The refresh request: the refreshToken cookie, when present. -/
structure RefreshRequest where
  refreshTokenCookie : Option Token
deriving DecidableEq, Repr

/-- The body of the try block of refreshAccessToken: verify the presented
token, look the account up by the decoded id claim, compare the presented
token against the persisted one, issue a fresh pair and answer with the
new tokens in cookies (httpOnly and secure false) while the JSON body
carries the presented token newRefreshToken in its refreshToken field. -/
def refreshTryBody (db : DB) (newRefreshToken : Token) :
    Except ApiError Response × DB :=
  match jwtVerifyRefresh newRefreshToken db.now with
  | Except.error msg => (Except.error ⟨401, msg⟩, db)
  | Except.ok decodedId =>
    match findById db decodedId with
    | none => (Except.error ⟨401, "Invalid token found"⟩, db)
    | some userId =>
      if userId.refreshToken != some newRefreshToken then
        (Except.error ⟨401, "Refresh token is expired"⟩, db)
      else
        let options : CookieOptions := ⟨false, false⟩
        match generateTokens db userId.id with
        | Except.error e => (Except.error e, db)
        | Except.ok (accessToken, refreshToken, db2) =>
          (Except.ok
            { status := 200,
              cookies := [⟨"accessToken", accessToken, options⟩,
                          ⟨"refreshToken", refreshToken, options⟩],
              clearedCookies := [],
              body := ⟨200, Data.refreshed accessToken newRefreshToken,
                       "Access token refreshed successfully"⟩ }, db2)

/-- refreshAccessToken of user.controller.js: a missing cookie fails
Unauthorized outright; every error thrown inside the try block is caught
and rethrown as ApiError 401 carrying the original message. -/
def refreshAccessToken (db : DB) (req : RefreshRequest) :
    Except ApiError Response × DB :=
  match req.refreshTokenCookie with
  | none => (Except.error ⟨401, "Unauthorized request found"⟩, db)
  | some t =>
    match refreshTryBody db t with
    | (Except.error e, db2) => (Except.error ⟨401, e.message⟩, db2)
    | ok => ok

/-- asyncHandler of utils/asyncHandler.js: the wrapper returned for a
request handler declares its parameters in the order (res, req, next) and
invokes the handler as reqHandler(req, res, next); a rejection of the
handler is forwarded to next. -/
def asyncHandler {V E O : Type} (reqHandler : V → V → (E → O) → Except E O) :
    V → V → (E → O) → O :=
  fun res req next =>
    match reqHandler req res next with
    | Except.ok o => o
    | Except.error e => next e

/-- Executable well-formedness of the token clock: every refresh token
persisted in the store was minted strictly before the current instant.
Every reachable store satisfies this because the mint clock advances past
each minted token. -/
def tokenClockWF (db : DB) : Bool :=
  db.users.all (fun a =>
    match a.refreshToken with
    | some t => decide (t.iat < db.now)
    | none => true)

/-- A document free of both secret fields. -/
def noSecretKeys (d : Doc) : Prop :=
  "password" ∉ docKeys d ∧ "refreshToken" ∉ docKeys d

/-- A junk response used as the default of extraction helpers. -/
def emptyResponse : Response := ⟨0, [], [], ⟨0, Data.empty, ""⟩⟩

/-- Demo image host: every upload succeeds with a cdn url. -/
def demoUpload : String → Option String := fun p => some ("cdn/" ++ p)

/-- The empty store. -/
def db0Empty : DB := ⟨[], 0, 0⟩

/-- A complete register request for the user alice. -/
def regAlice : RegisterRequest :=
  ⟨some "alice", some "Alice A", some "a@x", some "pw",
   some ⟨some "a.png", some "c.png"⟩⟩

/-- The account created by registering alice on the empty store. -/
def demoAccount : Account :=
  ⟨0, "alice", "Alice A", "a@x", hashPw "pw", "cdn/a.png", "cdn/c.png", none⟩

/-- The store holding exactly the freshly registered alice. -/
def demoDB : DB := ⟨[demoAccount], 0, 1⟩

/-- The register response for alice on the empty store. -/
def regAliceResp : Response :=
  match (registerUser demoUpload db0Empty regAlice).1 with
  | Except.ok r => r
  | Except.error _ => emptyResponse

/-- The sanitized account document carried by the register response. -/
def regAliceDoc : Doc :=
  match regAliceResp.body.data with
  | Data.registered _ d => d
  | _ => []

/-- A login request for alice with the correct password. -/
def demoLoginReq : LoginRequest := ⟨none, some "alice", some "pw"⟩

/-- The login response for alice against demoDB. -/
def demoLoginResp : Response :=
  match (loginUser demoDB demoLoginReq).1 with
  | Except.ok r => r
  | Except.error _ => emptyResponse

/-- The optional sanitized account document of the login response. -/
def demoLoginUserDoc : Option Doc :=
  match demoLoginResp.body.data with
  | Data.loggedIn u _ _ => u
  | _ => none

/-- The access token of the login response body. -/
def demoLoginAccess : Token :=
  match demoLoginResp.body.data with
  | Data.loggedIn _ a _ => a
  | _ => ⟨TokenKind.access, 0, 0⟩

/-- The refresh token of the login response body. -/
def demoLoginRefresh : Token :=
  match demoLoginResp.body.data with
  | Data.loggedIn _ _ r => r
  | _ => ⟨TokenKind.access, 0, 0⟩

/-- The refresh token persisted for alice in the demo session store. -/
def demoSessionToken : Token := ⟨TokenKind.refresh, 0, 0⟩

/-- The store after alice logged in: her account carries a persisted
refresh token minted at instant 0 and the clock has advanced to 1. -/
def demoSessionDB : DB :=
  ⟨[{ demoAccount with refreshToken := some demoSessionToken }], 1, 1⟩

/-- The logout response for alice against the demo session store. -/
def demoLogoutResp : Response :=
  match (logoutUser demoSessionDB 0).1 with
  | Except.ok r => r
  | Except.error _ => emptyResponse

/-- The refresh call presenting the valid session token of alice. -/
def demoRefreshOut : Except ApiError Response × DB :=
  refreshAccessToken demoSessionDB ⟨some demoSessionToken⟩

/-- The response of the demo refresh call. -/
def demoRefreshResp : Response :=
  match demoRefreshOut.1 with
  | Except.ok r => r
  | Except.error _ => emptyResponse

/-- A register request whose password field is absent. -/
def demoMissingPwReq : RegisterRequest :=
  ⟨some "ann", some "Ann B", some "n@x", none, some ⟨some "a.png", some "c.png"⟩⟩

/-- A register request matching the stored alice by raw username and
email, used to exhibit the conflict branch. -/
def demoConflictReq : RegisterRequest :=
  ⟨some "alice", some "Someone", some "a@x", some "zz",
   some ⟨some "a.png", some "c.png"⟩⟩

/-- A register request whose username differs from the stored alice only
by case, with a fresh email. -/
def demoMixedCaseReq : RegisterRequest :=
  ⟨some "Alice", some "Ali B", some "b@x", some "pw2",
   some ⟨some "a2.png", some "c2.png"⟩⟩

/-- A register request with the fresh mixed-case username Fresh. -/
def demoFreshReq : RegisterRequest :=
  ⟨some "Fresh", some "Fresh F", some "f@x", some "pw3",
   some ⟨some "f.png", some "g.png"⟩⟩

/-- The first token pair issued for alice against demoDB. -/
def rotOut1 : Except ApiError (Token × Token × DB) := generateTokens demoDB 0

/-- The store after the first demo issuance. -/
def rotDB1 : DB :=
  match rotOut1 with
  | Except.ok (_, _, d) => d
  | Except.error _ => demoDB

/-- The access token of the first demo issuance. -/
def rotA1 : Token :=
  match rotOut1 with
  | Except.ok (a, _, _) => a
  | Except.error _ => demoSessionToken

/-- The refresh token of the first demo issuance. -/
def rotT1 : Token :=
  match rotOut1 with
  | Except.ok (_, t, _) => t
  | Except.error _ => demoSessionToken

/-- The second token pair issued for alice, on the store left by the
first issuance. -/
def rotOut2 : Except ApiError (Token × Token × DB) := generateTokens rotDB1 0

/-- The store after the second demo issuance. -/
def rotDB2 : DB :=
  match rotOut2 with
  | Except.ok (_, _, d) => d
  | Except.error _ => demoDB

/-- The access token of the second demo issuance. -/
def rotA2 : Token :=
  match rotOut2 with
  | Except.ok (a, _, _) => a
  | Except.error _ => demoSessionToken

/-- The refresh token of the second demo issuance. -/
def rotT2 : Token :=
  match rotOut2 with
  | Except.ok (_, t, _) => t
  | Except.error _ => demoSessionToken

/-- The register response for the fresh mixed-case request on demoDB. -/
def demoFreshOut : Except Failure Response × DB :=
  registerUser demoUpload demoDB demoFreshReq

/-- The response of the fresh demo registration. -/
def demoFreshResp : Response :=
  match demoFreshOut.1 with
  | Except.ok r => r
  | Except.error _ => emptyResponse

lemma findById_mem (db : DB) (uid : Nat) (w : Account)
    (h : findById db uid = some w) : w ∈ db.users ∧ w.id = uid := by
  unfold findById at h
  refine ⟨List.mem_of_find?_eq_some h, ?_⟩
  have := List.find?_some h
  simpa using this

lemma find?_map_replace (uid : Nat) (u : Account) (hu : u.id = uid) :
    ∀ (l : List Account) (w : Account),
      l.find? (fun a => a.id == uid) = some w →
      (l.map (fun a => if a.id == u.id then u else a)).find?
        (fun a => a.id == uid) = some u := by
  intro l
  induction l with
  | nil => intro w hw; simp at hw
  | cons hd tl ih =>
    intro w hw
    rw [List.find?_cons] at hw
    by_cases h : hd.id = uid
    · have hrepl : (if hd.id == u.id then u else hd) = u := by
        simp [hu, h]
      rw [List.map_cons, hrepl, List.find?_cons]
      simp [hu]
    · have hb : (hd.id == uid) = false := by simp [h]
      rw [hb] at hw
      have hrepl : (if hd.id == u.id then u else hd) = hd := by
        simp [hu]
        intro heq
        exact absurd heq h
      rw [List.map_cons, hrepl, List.find?_cons, hb]
      exact ih w hw

lemma findById_saveUser (db : DB) (uid : Nat) (w u : Account)
    (hw : findById db uid = some w) (hu : u.id = uid) :
    findById (saveUser db u) uid = some u :=
  find?_map_replace uid u hu db.users w hw

lemma saveUser_now (db : DB) (u : Account) : (saveUser db u).now = db.now := rfl

lemma findById_setNow (db : DB) (n uid : Nat) :
    findById { db with now := n } uid = findById db uid := rfl

lemma selectExcluding_no_secret (a : Account) :
    noSecretKeys (selectExcluding a ["password", "refreshToken"]) := by
  unfold noSecretKeys selectExcluding Account.toDoc docKeys
  cases a.refreshToken <;> simp

/-- C3: the wrapper built by asyncHandler passes its first positional
parameter (the Express request position) to the wrapped handler as the
second argument and its second parameter as the first, for every handler
observing its arguments and every argument pair; a rejection of the
handler is forwarded to next. -/
theorem asyncHandler_swaps_request_and_response {V E O : Type}
    (record : V → V → O) (a b : V) (e : E) (next : E → O) :
    asyncHandler (fun r s _ => Except.ok (record r s)) a b next = record b a ∧
    asyncHandler (fun _ _ _ => Except.error e) a b next = next e ∧
    (∀ f : V → V → (E → O) → Except E O,
      asyncHandler f a b next =
        match f b a next with
        | Except.ok o => o
        | Except.error e2 => next e2) :=
  ⟨rfl, rfl, fun _ => rfl⟩

/-- C4 counterexample: on the empty store, generateTokens of a
nonexistent account id does not fail NotFound; the null lookup throws
inside the try block and the catch-all yields the same Internal error
used for signing and persistence failures. -/
theorem generateTokens_missing_account_counterexample :
    ¬ (∃ msg, generateTokens ⟨[], 0, 0⟩ 5 = Except.error ⟨404, msg⟩) ∧
    generateTokens ⟨[], 0, 0⟩ 5 =
      Except.error ⟨500, "Error while generating tokens"⟩ := by
  constructor
  · rintro ⟨msg, h⟩
    rw [show generateTokens ⟨[], 0, 0⟩ 5 =
        Except.error ⟨500, "Error while generating tokens"⟩ from rfl] at h
    simp at h
  · rfl

/-- C4 amended: generateTokens surfaces a missing account as the same
Internal error used for signing and persistence failures, never as a
NotFound failure: when the lookup yields nothing the result is ApiError
500 with message Error while generating tokens. -/
theorem generateTokens_missing_account_internal (db : DB) (uid : Nat)
    (h : findById db uid = none) :
    generateTokens db uid =
      Except.error ⟨500, "Error while generating tokens"⟩ := by
  simp [generateTokens, h]

/-- C4 witness: the amended statement at the empty store and id 5. -/
theorem generateTokens_missing_account_internal_witness :
    generateTokens ⟨[], 0, 0⟩ 5 =
      Except.error ⟨500, "Error while generating tokens"⟩ :=
  generateTokens_missing_account_internal ⟨[], 0, 0⟩ 5 rfl

/-- C6: a login whose credentials pass the presence guard but match no
stored account fails with ApiError 401 User does not exist, and the store
is returned unchanged, so no token pair is issued and no account record
is modified. -/
theorem login_unknown_user_unauthorized (db : DB) (req : LoginRequest)
    (hcred : (jsTruthyStr req.userName || jsTruthyStr req.email) = true)
    (hnone : findOne db req.userName req.email = none) :
    loginUser db req = (Except.error ⟨401, "User does not exist"⟩, db) := by
  simp [loginUser, hcred, hnone]

/-- C6 witness: logging in as the absent user bob against the store
holding only alice. -/
theorem login_unknown_user_unauthorized_witness :
    loginUser demoDB ⟨none, some "bob", some "pw"⟩ =
      (Except.error ⟨401, "User does not exist"⟩, demoDB) :=
  login_unknown_user_unauthorized demoDB ⟨none, some "bob", some "pw"⟩ rfl rfl

/-- C8: a register request whose password field is absent does not fail
with ApiError 400 All fields are required; calling trim on the undefined
field throws a TypeError that escapes to the top-level handler, and no
account is created (the store is unchanged). -/
theorem register_missing_field_raises_type_error :
    registerUser demoUpload demoDB demoMissingPwReq =
      (Except.error
        (Failure.js "TypeError: cannot read properties of undefined"), demoDB) ∧
    (Failure.js "TypeError: cannot read properties of undefined" ≠
      Failure.api ⟨400, "All fields are required"⟩) := by
  constructor
  · rfl
  · simp

/-- C5 counterexample: the successful login of alice sets both token
cookies with httpOnly false and secure false, not with both attributes
true as claimed. -/
theorem login_insecure_cookies_counterexample :
    ((loginUser demoDB demoLoginReq).1.toOption.map
      (fun r => r.cookies.map (fun c => c.options))) =
      some [⟨false, false⟩, ⟨false, false⟩] ∧
    ((loginUser demoDB demoLoginReq).1.toOption.map
      (fun r => r.cookies.map (fun c => c.options))) ≠
      some [⟨true, true⟩, ⟨true, true⟩] := by
  constructor
  · rfl
  · rw [show ((loginUser demoDB demoLoginReq).1.toOption.map
        (fun r => r.cookies.map (fun c => c.options))) =
        some [⟨false, false⟩, ⟨false, false⟩] from rfl]
    simp

/-- C5 amended: on every successful login both tokens are delivered as
cookies named accessToken and refreshToken, but with the http-only and
secure attributes both false, not both true. -/
theorem login_sets_both_cookies_insecure (db : DB) (req : LoginRequest)
    (resp : Response) (db2 : DB)
    (h : loginUser db req = (Except.ok resp, db2)) :
    ∃ a r, resp.cookies = [⟨"accessToken", a, ⟨false, false⟩⟩,
                           ⟨"refreshToken", r, ⟨false, false⟩⟩] := by
  unfold loginUser at h
  split at h
  · simp at h
  · split at h
    · simp at h
    · split at h
      · simp at h
      · split at h
        · simp at h
        · simp only [Prod.mk.injEq, Except.ok.injEq] at h
          obtain ⟨hresp, hdb⟩ := h
          exact ⟨_, _, by rw [← hresp]⟩

/-- C5 witness: the amended statement at the concrete login of alice. -/
theorem login_sets_both_cookies_insecure_witness :
    ∃ a r, demoLoginResp.cookies = [⟨"accessToken", a, ⟨false, false⟩⟩,
                                    ⟨"refreshToken", r, ⟨false, false⟩⟩] :=
  login_sets_both_cookies_insecure demoDB demoLoginReq demoLoginResp
    (loginUser demoDB demoLoginReq).2 rfl

/-- C9 counterexample: with alice already stored, registering the
username Alice (differing only by case) with a fresh email passes the
duplicate check, which compares the raw submission, and the created
account stores the lowercased name, leaving two accounts with the
username alice: the registration succeeds and the case-insensitive
uniqueness invariant is broken. -/
theorem register_case_collision_counterexample :
    (registerUser demoUpload demoDB demoMixedCaseReq).1.toOption.isSome = true ∧
    ((registerUser demoUpload demoDB demoMixedCaseReq).2.users.map
      (fun a => a.userName)) = ["alice", "alice"] := by
  exact ⟨rfl, rfl⟩

/-- C9 amended: when all four fields are non-blank, registration fails
with ApiError 400 User already exist exactly when some stored account
matches the raw submitted username or the submitted email, leaving the
store unchanged; on success the store grows by one account whose stored
username is the lowercased submission.  Because the duplicate check uses
the raw username while storage lowercases it, only exact-match
uniqueness is enforced and case-insensitive username uniqueness is not
preserved. -/
theorem register_conflict_and_lowercase (upload : String → Option String)
    (db : DB) (userName fullName email password : String)
    (files : Option RegisterFiles)
    (hnb : (jsTrim fullName == "" || jsTrim userName == "" ||
            jsTrim email == "" || jsTrim password == "") = false) :
    (∀ w, findOne db (some userName) (some email) = some w →
      registerUser upload db
          ⟨some userName, some fullName, some email, some password, files⟩ =
        (Except.error (Failure.api ⟨400, "User already exist"⟩), db)) ∧
    (∀ resp db2,
      registerUser upload db
          ⟨some userName, some fullName, some email, some password, files⟩ =
        (Except.ok resp, db2) →
      ∃ acc, db2.users = db.users ++ [acc] ∧
        acc.userName = jsToLowerCase userName) := by
  constructor
  · intro w hw
    simp [registerUser, hnb, hw]
  · intro resp db2 h
    simp only [registerUser, hnb, Bool.false_eq_true, if_false] at h
    split at h
    · simp at h
    · split at h
      · simp at h
      · split at h
        · simp at h
        · split at h
          · simp at h
          · split at h
            · simp at h
            · split at h
              · simp at h
              · split at h
                · simp at h
                · split at h
                  · simp at h
                  · simp only [Prod.mk.injEq, Except.ok.injEq] at h
                    obtain ⟨hresp, hdb⟩ := h
                    exact ⟨_, by rw [← hdb], rfl⟩

/-- C9 witness: the amended statement exercised at the store holding
alice: registering the exact username alice with her email fails with
the conflict error, and the fresh registration of the username Fresh
succeeds storing the lowercased name fresh. -/
theorem register_conflict_and_lowercase_witness :
    registerUser demoUpload demoDB demoConflictReq =
      (Except.error (Failure.api ⟨400, "User already exist"⟩), demoDB) ∧
    (∃ acc, demoFreshOut.2.users = demoDB.users ++ [acc] ∧
      acc.userName = jsToLowerCase "Fresh") := by
  constructor
  · exact (register_conflict_and_lowercase demoUpload demoDB
      "alice" "Someone" "a@x" "zz"
      (some ⟨some "a.png", some "c.png"⟩) rfl).1 demoAccount rfl
  · exact (register_conflict_and_lowercase demoUpload demoDB
      "Fresh" "Fresh F" "f@x" "pw3"
      (some ⟨some "f.png", some "g.png"⟩) rfl).2 demoFreshResp demoFreshOut.2 rfl

/-- C7: after logging an account out, its persisted refresh-token field
is unset, and a refresh call presenting the token that was persisted
before the logout (well-formed and unexpired) fails with ApiError 401
Refresh token is expired, leaving the store unchanged. -/
theorem logout_invalidates_refresh_token (db : DB) (uid : Nat) (u : Account)
    (t : Token) (resp : Response) (db1 : DB)
    (hu : findById db uid = some u)
    (ht : u.refreshToken = some t)
    (hsub : t.subjectId = uid)
    (hkind : t.kind = TokenKind.refresh)
    (hfresh : db.now < t.iat + refreshTokenLifetime)
    (hlogout : logoutUser db uid = (Except.ok resp, db1)) :
    (∃ u1, findById db1 uid = some u1 ∧ u1.refreshToken = none) ∧
    refreshAccessToken db1 ⟨some t⟩ =
      (Except.error ⟨401, "Refresh token is expired"⟩, db1) := by
  have hid : u.id = uid := (findById_mem db uid u hu).2
  have hdb1 : db1 = saveUser db { u with refreshToken := none } := by
    have h := hlogout
    simp only [logoutUser, hu, Prod.mk.injEq, Except.ok.injEq] at h
    exact h.2.symm
  subst hdb1
  have hfind1 : findById (saveUser db { u with refreshToken := none }) uid =
      some { u with refreshToken := none } :=
    findById_saveUser db uid u { u with refreshToken := none } hu hid
  refine ⟨⟨{ u with refreshToken := none }, hfind1, rfl⟩, ?_⟩
  have hexp : ¬ (t.iat + refreshTokenLifetime ≤ db.now) := by omega
  have hver : jwtVerifyRefresh t (saveUser db { u with refreshToken := none }).now
      = Except.ok t.subjectId := by
    simp [jwtVerifyRefresh, hkind, saveUser_now, hexp]
  simp [refreshAccessToken, refreshTryBody, hver, hsub, hfind1]

/-- C7 witness: alice with a live session token is logged out, and a
refresh presenting her previous token is rejected. -/
theorem logout_invalidates_refresh_token_witness :
    (∃ u1, findById (logoutUser demoSessionDB 0).2 0 = some u1 ∧
      u1.refreshToken = none) ∧
    refreshAccessToken (logoutUser demoSessionDB 0).2 ⟨some demoSessionToken⟩ =
      (Except.error ⟨401, "Refresh token is expired"⟩,
        (logoutUser demoSessionDB 0).2) :=
  logout_invalidates_refresh_token demoSessionDB 0
    { demoAccount with refreshToken := some demoSessionToken }
    demoSessionToken demoLogoutResp (logoutUser demoSessionDB 0).2
    rfl rfl rfl rfl (by decide) rfl

/-- C2: every successful issuance persists the newly minted refresh token
on the account record, overwriting the previous one; after two sequential
issuances for the same account the two refresh tokens differ, the second
is the persisted one, and a refresh call presenting the first fails with
ApiError 401 Refresh token is expired even though the first token is
well-formed and unexpired, because the byte-for-byte comparison against
the persisted value fails. -/
theorem generateTokens_rotation (db : DB) (uid : Nat)
    (a1 t1 : Token) (db1 : DB) (a2 t2 : Token) (db2 : DB)
    (h1 : generateTokens db uid = Except.ok (a1, t1, db1))
    (h2 : generateTokens db1 uid = Except.ok (a2, t2, db2)) :
    (∃ u1, findById db1 uid = some u1 ∧ u1.refreshToken = some t1) ∧
    (∃ u2, findById db2 uid = some u2 ∧ u2.refreshToken = some t2) ∧
    t1 ≠ t2 ∧
    refreshAccessToken db2 ⟨some t1⟩ =
      (Except.error ⟨401, "Refresh token is expired"⟩, db2) := by
  unfold generateTokens at h1
  cases hw : findById db uid with
  | none => rw [hw] at h1; exact absurd h1 (by simp)
  | some w =>
    rw [hw] at h1
    simp only [Except.ok.injEq, Prod.mk.injEq] at h1
    obtain ⟨ha1, ht1, hdb1⟩ := h1
    have hwid : w.id = uid := (findById_mem db uid w hw).2
    have hfind1 : findById db1 uid = some { w with refreshToken := some t1 } := by
      rw [← hdb1, ← ht1]
      exact findById_saveUser { db with now := db.now + 1 } uid w _ hw hwid
    have hnow1 : db1.now = db.now + 1 := by rw [← hdb1]; rfl
    unfold generateTokens at h2
    rw [hfind1] at h2
    simp only [Except.ok.injEq, Prod.mk.injEq] at h2
    obtain ⟨ha2, ht2, hdb2⟩ := h2
    have hfind2 : findById db2 uid = some { w with refreshToken := some t2 } := by
      rw [← hdb2, ← ht2]
      exact findById_saveUser { db1 with now := db1.now + 1 } uid
        { w with refreshToken := some t1 } _ hfind1 hwid
    have hnow2 : db2.now = db.now + 2 := by rw [← hdb2, hnow1]; rfl
    have htne : t1 ≠ t2 := by
      rw [← ht1, ← ht2]
      simp [generateRefreshToken, hnow1]
    refine ⟨⟨_, hfind1, rfl⟩, ⟨_, hfind2, rfl⟩, htne, ?_⟩
    have hkind1 : t1.kind = TokenKind.refresh := by rw [← ht1]; rfl
    have hiat1 : t1.iat = db.now := by rw [← ht1]; rfl
    have hsub1 : t1.subjectId = uid := by rw [← ht1]; exact hwid
    have hexp : ¬ (t1.iat + refreshTokenLifetime ≤ db2.now) := by
      rw [hiat1, hnow2]
      simp [refreshTokenLifetime]
    have hver : jwtVerifyRefresh t1 db2.now = Except.ok t1.subjectId := by
      simp [jwtVerifyRefresh, hkind1, hexp]
    have hne : (some t2 != some t1) = true := by
      simp only [bne_iff_ne, ne_eq, Option.some.injEq]
      intro hcontra
      exact htne hcontra.symm
    simp [refreshAccessToken, refreshTryBody, hver, hsub1, hfind2, hne]

/-- C2 witness: two sequential issuances for alice, the second of which
rotates out the first refresh token, whose presentation is then
rejected. -/
theorem generateTokens_rotation_witness :
    (∃ u1, findById rotDB1 0 = some u1 ∧ u1.refreshToken = some rotT1) ∧
    (∃ u2, findById rotDB2 0 = some u2 ∧ u2.refreshToken = some rotT2) ∧
    rotT1 ≠ rotT2 ∧
    refreshAccessToken rotDB2 ⟨some rotT1⟩ =
      (Except.error ⟨401, "Refresh token is expired"⟩, rotDB2) :=
  generateTokens_rotation demoDB 0 rotA1 rotT1 rotDB1 rotA2 rotT2 rotDB2 rfl rfl

/-- C1: every successful refresh call answers with a body whose access
token is the newly minted one but whose refresh token is the presented
(old) cookie value, while the newly minted refresh token is the one set
in the refresh-token cookie and persisted on the account record; on a
store whose persisted tokens were minted before the current instant, the
refresh token in the body therefore differs from the one persisted after
the call. -/
theorem refresh_returns_stale_token (db : DB) (t : Token)
    (resp : Response) (db2 : DB)
    (hwf : tokenClockWF db = true)
    (h : refreshAccessToken db ⟨some t⟩ = (Except.ok resp, db2)) :
    ∃ newAccess minted,
      resp.body.data = Data.refreshed newAccess t ∧
      resp.cookies = [⟨"accessToken", newAccess, ⟨false, false⟩⟩,
                      ⟨"refreshToken", minted, ⟨false, false⟩⟩] ∧
      (∃ u2, findById db2 t.subjectId = some u2 ∧
        u2.refreshToken = some minted) ∧
      t ≠ minted := by
  simp only [refreshAccessToken] at h
  split at h
  · simp at h
  · simp only [refreshTryBody] at h
    split at h
    · simp at h
    · rename_i decodedId hverState
      split at h
      · simp at h
      · rename_i userId hfindu
        split at h
        · simp at h
        · rename_i hcmp
          split at h
          · simp at h
          · rename_i a3 r3 db3 hgt
            simp only [Prod.mk.injEq, Except.ok.injEq] at h
            obtain ⟨hresp, hdb⟩ := h
            have hdec : decodedId = t.subjectId := by
              unfold jwtVerifyRefresh at hverState
              split at hverState
              · simp at hverState
              · split at hverState
                · simp at hverState
                · simpa using hverState.symm
            have hcmp2 : userId.refreshToken = some t := by
              simpa using hcmp
            have huid : userId.id = decodedId := (findById_mem db decodedId userId hfindu).2
            unfold generateTokens at hgt
            rw [show findById db userId.id = some userId from huid ▸ hfindu] at hgt
            simp only [Except.ok.injEq, Prod.mk.injEq] at hgt
            obtain ⟨ha3, hr3, hdb3⟩ := hgt
            have hiat : t.iat < db.now := by
              have hall := List.all_eq_true.mp hwf userId
                (List.mem_of_find?_eq_some hfindu)
              rw [hcmp2] at hall
              simpa using hall
            refine ⟨a3, r3, by rw [← hresp], by rw [← hresp], ?_, ?_⟩
            · refine ⟨{ userId with refreshToken := some r3 }, ?_, rfl⟩
              rw [← hdb, ← hdb3, ← hr3, ← hdec]
              exact findById_saveUser { db with now := db.now + 1 } decodedId
                userId _ hfindu huid
            · intro hcontra
              rw [hcontra, ← hr3] at hiat
              simp [generateRefreshToken] at hiat

/-- C1 witness: alice presents her live session token; the body carries
the old token while the store and the refresh cookie carry the newly
minted one. -/
theorem refresh_returns_stale_token_witness :
    ∃ newAccess minted,
      demoRefreshResp.body.data = Data.refreshed newAccess demoSessionToken ∧
      demoRefreshResp.cookies =
        [⟨"accessToken", newAccess, ⟨false, false⟩⟩,
         ⟨"refreshToken", minted, ⟨false, false⟩⟩] ∧
      (∃ u2, findById demoRefreshOut.2 demoSessionToken.subjectId = some u2 ∧
        u2.refreshToken = some minted) ∧
      demoSessionToken ≠ minted :=
  refresh_returns_stale_token demoSessionDB demoSessionToken
    demoRefreshResp demoRefreshOut.2 rfl rfl

/-- C10: the success payload of registration carries a sanitized account
document with neither a password nor a refreshToken field, and the
success payload of login carries a sanitized account document with the
same property. -/
theorem register_login_payload_sanitized
    (upload : String → Option String) (db dbL : DB)
    (rreq : RegisterRequest) (lreq : LoginRequest)
    (resp1 resp2 : Response) (db1 db2L : DB)
    (msg : String) (d1 : Doc) (u2 : Option Doc) (at2 rt2 : Token)
    (hreg : registerUser upload db rreq = (Except.ok resp1, db1))
    (hd1 : resp1.body.data = Data.registered msg d1)
    (hlog : loginUser dbL lreq = (Except.ok resp2, db2L))
    (hd2 : resp2.body.data = Data.loggedIn u2 at2 rt2) :
    noSecretKeys d1 ∧ ∃ d2, u2 = some d2 ∧ noSecretKeys d2 := by
  constructor
  · simp only [registerUser] at hreg
    split at hreg
    · split at hreg
      · simp at hreg
      · split at hreg
        · simp at hreg
        · split at hreg
          · simp at hreg
          · split at hreg
            · simp at hreg
            · split at hreg
              · simp at hreg
              · split at hreg
                · simp at hreg
                · split at hreg
                  · simp at hreg
                  · split at hreg
                    · simp at hreg
                    · split at hreg
                      · simp at hreg
                      · simp only [Prod.mk.injEq, Except.ok.injEq] at hreg
                        obtain ⟨hresp, hdb⟩ := hreg
                        rw [← hresp] at hd1
                        simp only [Data.registered.injEq] at hd1
                        rw [← hd1.2]
                        exact selectExcluding_no_secret _
    · simp at hreg
  · simp only [loginUser] at hlog
    split at hlog
    · simp at hlog
    · split at hlog
      · simp at hlog
      · rename_i user hfo
        split at hlog
        · simp at hlog
        · split at hlog
          · simp at hlog
          · rename_i aT rT db3 hgt
            simp only [Prod.mk.injEq, Except.ok.injEq] at hlog
            obtain ⟨hresp, hdb⟩ := hlog
            unfold generateTokens at hgt
            cases heqw : findById dbL user.id with
            | none => rw [heqw] at hgt; simp at hgt
            | some w =>
              rw [heqw] at hgt
              simp only [Except.ok.injEq, Prod.mk.injEq] at hgt
              obtain ⟨haT, hrT, hdb3⟩ := hgt
              have hwid : w.id = user.id := (findById_mem dbL user.id w heqw).2
              have hfind3 : findById db3 user.id =
                  some { w with refreshToken := some rT } := by
                rw [← hdb3, ← hrT]
                exact findById_saveUser { dbL with now := dbL.now + 1 }
                  user.id w _ heqw hwid
              rw [← hresp] at hd2
              simp only [Data.loggedIn.injEq] at hd2
              refine ⟨selectExcluding { w with refreshToken := some rT }
                ["password", "refreshToken"], ?_, selectExcluding_no_secret _⟩
              rw [← hd2.1, hfind3]
              rfl

/-- C10 witness: registering alice on the empty store and then logging
her in; both payload documents are free of the secret fields. -/
theorem register_login_payload_sanitized_witness :
    noSecretKeys regAliceDoc ∧
    ∃ d2, demoLoginUserDoc = some d2 ∧ noSecretKeys d2 :=
  register_login_payload_sanitized demoUpload db0Empty demoDB
    regAlice demoLoginReq regAliceResp demoLoginResp
    demoDB (loginUser demoDB demoLoginReq).2
    "User registered successfully" regAliceDoc
    demoLoginUserDoc demoLoginAccess demoLoginRefresh
    rfl rfl rfl rfl

end CacPro
